import Mathlib

/-!
Shallow embedding of `packages/playwright/src/worker/timeoutManager.ts`
(the `TimeoutManager` class) together with a model of its external
collaborators (the Timer primitive and terminal styling), which the spec
declares out of scope and specifies only through their interfaces.

Time slots are mutable objects in the TypeScript source, owned by the
manager (the default slot) or by runnable/fixture descriptions and
mutated in place through the resolution chain.  We model this heap of
slot objects as a list indexed by slot ids; descriptions reference slots
by id, and in-place mutation becomes an update of the list at that id.
-/

/-- A slot id: an index into the manager's heap of `TimeSlot` objects. -/
abbrev SlotId := Nat

/-- `type TimeSlot = { timeout: number; elapsed: number }`. -/
structure TimeSlot where
  timeout : Nat
  elapsed : Nat
deriving DecidableEq, Repr

/-- `type RunnableType = 'test' | 'beforeAll' | 'afterAll' | 'beforeEach' |
'afterEach' | 'slow' | 'skip' | 'fail' | 'fixme' | 'teardown'`. -/
inductive RunnableType where
  | test
  | beforeAll
  | afterAll
  | beforeEach
  | afterEach
  | slow
  | skip
  | fail
  | fixme
  | teardown
deriving DecidableEq, Repr

/-- The string the TypeScript union member interpolates into messages. -/
def RunnableType.str : RunnableType → String
  | .test => "test"
  | .beforeAll => "beforeAll"
  | .afterAll => "afterAll"
  | .beforeEach => "beforeEach"
  | .afterEach => "afterEach"
  | .slow => "slow"
  | .skip => "skip"
  | .fail => "fail"
  | .fixme => "fixme"
  | .teardown => "teardown"

/-- `Location` from `types/testReporter` : an opaque `{file, line, column}`
triple formatted verbatim into error traces. -/
structure Location where
  file : String
  line : Nat
  column : Nat
deriving DecidableEq, Repr

/-- The `phase` field of a fixture description: `'setup' | 'teardown'`. -/
inductive FixturePhase where
  | setup
  | teardown
deriving DecidableEq, Repr

/-- The string the TypeScript union member interpolates into messages. -/
def FixturePhase.str : FixturePhase → String
  | .setup => "setup"
  | .teardown => "teardown"

/-- `type FixtureDescription = { title; phase; location?; slot? }`.
The optional slot is a reference into the manager's slot heap. -/
structure FixtureDescription where
  title : String
  phase : FixturePhase
  location : Option Location
  slot : Option SlotId
deriving DecidableEq, Repr

/-- `type RunnableDescription = { type; location?; slot?; fixture? }`. -/
structure RunnableDescription where
  type : RunnableType
  location : Option Location
  slot : Option SlotId
  fixture : Option FixtureDescription
deriving DecidableEq, Repr

/-- The resting runnable `{ type: 'test' }`. -/
def restingRunnable : RunnableDescription :=
  { type := RunnableType.test, location := none, slot := none, fixture := none }

/-- Modelled from the spec: the external Timer (`TimeoutRunner` from
`playwright-core/lib/utils`, not part of this repository's sources) is
specified only through its interface: `updateTimeout(timeout, elapsedSoFar?)`
pushes a new deadline computed from `timeout` minus `elapsedSoFar`
(default zero); `elapsed()` and `deadline()` are reads.  We record the
last pushed `(timeout, elapsedSoFar)` pair as the Timer's state. -/
structure TimerState where
  timeout : Nat
  elapsed : Nat
deriving DecidableEq, Repr

/-- Modelled from the spec: `updateTimeout(timeout, elapsedSoFar?)` with the
omitted `elapsedSoFar` defaulting to zero. -/
def TimerState.updateTimeout (_tm : TimerState) (timeout : Nat) (elapsed : Option Nat) : TimerState :=
  { timeout := timeout, elapsed := elapsed.getD 0 }

/-- Modelled from the spec: the deadline the Timer enforces, computed from
the last pushed `timeout` minus `elapsedSoFar`. -/
def TimerState.deadline (tm : TimerState) : Int :=
  (tm.timeout : Int) - (tm.elapsed : Int)

/-- The state of a `TimeoutManager` instance: the heap of slot objects,
the id of `_defaultSlot`, the current `_runnable`, and the state of
`_timeoutRunner`. -/
structure TimeoutManager where
  slots : List TimeSlot
  defaultSlotId : SlotId
  runnable : RunnableDescription
  timer : TimerState
deriving DecidableEq, Repr

/-- Dereference a slot id in the heap (ids used by reachable states are
always in range; out-of-range reads return a dummy slot). -/
def TimeoutManager.getSlot (m : TimeoutManager) (id : SlotId) : TimeSlot :=
  m.slots.getD id { timeout := 0, elapsed := 0 }

/-- In-place mutation of the slot object `id` points to. -/
def TimeoutManager.setSlot (m : TimeoutManager) (id : SlotId) (s : TimeSlot) : TimeoutManager :=
  { m with slots := m.slots.set id s }

/-- `constructor(timeout)` : default slot `{ timeout, elapsed: 0 }`, resting
runnable `{ type: 'test' }`, and a fresh `TimeoutRunner(timeout)`. -/
def TimeoutManager.create (timeout : Nat) : TimeoutManager :=
  { slots := [{ timeout := timeout, elapsed := 0 }]
    defaultSlotId := 0
    runnable := restingRunnable
    timer := { timeout := timeout, elapsed := 0 } }

/-- `_currentSlot()` : `this._runnable.fixture?.slot || this._runnable.slot
|| this._defaultSlot`.  Slot objects are truthy, so the JavaScript `||`
chain falls through exactly on absent (`undefined`) slots. -/
def TimeoutManager.currentSlotId (m : TimeoutManager) : SlotId :=
  (((m.runnable.fixture.bind FixtureDescription.slot).or m.runnable.slot)).getD m.defaultSlotId

/-- The slot object `_currentSlot()` resolves to. -/
def TimeoutManager.currentSlot (m : TimeoutManager) : TimeSlot :=
  m.getSlot m.currentSlotId

/-- `currentRunnableType()` : `this._runnable?.type || 'test'` (the
`_runnable` field and its `type` are always present, so this reads the
current type). -/
def TimeoutManager.currentRunnableType (m : TimeoutManager) : RunnableType :=
  m.runnable.type

/-- `currentSlotDeadline()` : pass-through read of `_timeoutRunner.deadline()`. -/
def TimeoutManager.currentSlotDeadline (m : TimeoutManager) : Int :=
  m.timer.deadline

/-- `_updateRunnable(runnable)` : stamp the Timer's live elapsed reading
(`now`) into the currently resolved slot, replace `_runnable`, then push the
newly resolved slot's `(timeout, elapsed)` pair into the Timer.  `now` is
the value `this._timeoutRunner.elapsed()` returns at this call. -/
def TimeoutManager.updateRunnable (m : TimeoutManager) (now : Nat) (runnable : RunnableDescription) : TimeoutManager :=
  let id := m.currentSlotId
  let m1 := m.setSlot id { m.getSlot id with elapsed := now }
  let m2 := { m1 with runnable := runnable }
  let slot := m2.currentSlot
  { m2 with timer := m2.timer.updateTimeout slot.timeout (some slot.elapsed) }

/-- `slow()` : triple the resolved slot's `timeout` in place and push the
new value to the Timer (`updateTimeout(slot.timeout)`, elapsed omitted). -/
def TimeoutManager.slow (m : TimeoutManager) : TimeoutManager :=
  let id := m.currentSlotId
  let slot := m.getSlot id
  let slot1 := { slot with timeout := slot.timeout * 3 }
  let m1 := m.setSlot id slot1
  { m1 with timer := m1.timer.updateTimeout slot1.timeout none }

/-- `setTimeout(timeout)` : no-op when the resolved slot's `timeout` is
falsy (zero means some debug mode); otherwise replace it and push it to
the Timer (`updateTimeout(timeout)`, elapsed omitted). -/
def TimeoutManager.setTimeout (m : TimeoutManager) (timeout : Nat) : TimeoutManager :=
  let id := m.currentSlotId
  let slot := m.getSlot id
  if slot.timeout = 0 then m
  else
    let m1 := m.setSlot id { slot with timeout := timeout }
    { m1 with timer := m1.timer.updateTimeout timeout none }

/-- `defaultSlotTimings()` : stamp the Timer's live elapsed reading into the
resolved slot, then return the default slot object. -/
def TimeoutManager.defaultSlotTimings (m : TimeoutManager) (now : Nat) : TimeSlot × TimeoutManager :=
  let id := m.currentSlotId
  let m1 := m.setSlot id { m.getSlot id with elapsed := now }
  (m1.getSlot m1.defaultSlotId, m1)

/-- Modelled from the spec: terminal text styling (`colors.red` from the
external utils bundle) is out of scope, "used only for message cosmetics";
modelled as the identity on strings. -/
def colorsRed (s : String) : String := s

/-- Format a `Location` the way the error stack line does:
`file:line:column`. -/
def Location.str (l : Location) : String :=
  l.file ++ ":" ++ toString l.line ++ ":" ++ toString l.column

/-- The `switch (this._runnable.type)` of `_createTimeoutError`, producing
the base message before the fixture-with-slot override.  The TypeScript
interpolates `this._runnable.type` and the fixture `phase`/`title` into
template strings, reproduced literally here. -/
def TimeoutManager.timeoutErrorBaseMessage (m : TimeoutManager) (timeout : Nat) : String :=
  match m.runnable.type with
  | .test =>
    match m.runnable.fixture with
    | some f =>
      match f.phase with
      | .setup =>
        "Test timeout of " ++ toString timeout ++ "ms exceeded while setting up \"" ++ f.title ++ "\"."
      | .teardown =>
        "Test finished within timeout of " ++ toString timeout ++ "ms, but tearing down \"" ++ f.title
          ++ "\" ran out of time.\nPlease allow more time for the test, since teardown is attributed towards the test timeout budget."
    | none => "Test timeout of " ++ toString timeout ++ "ms exceeded."
  | .afterEach =>
    "Test timeout of " ++ toString timeout ++ "ms exceeded while running \"" ++ RunnableType.str .afterEach ++ "\" hook."
  | .beforeEach =>
    "Test timeout of " ++ toString timeout ++ "ms exceeded while running \"" ++ RunnableType.str .beforeEach ++ "\" hook."
  | .beforeAll =>
    "\"" ++ RunnableType.str .beforeAll ++ "\" hook timeout of " ++ toString timeout ++ "ms exceeded."
  | .afterAll =>
    "\"" ++ RunnableType.str .afterAll ++ "\" hook timeout of " ++ toString timeout ++ "ms exceeded."
  | .teardown =>
    match m.runnable.fixture with
    | some f =>
      "Worker teardown timeout of " ++ toString timeout ++ "ms exceeded while "
        ++ (match f.phase with | .setup => "setting up" | .teardown => "tearing down")
        ++ " \"" ++ f.title ++ "\"."
    | none => "Worker teardown timeout of " ++ toString timeout ++ "ms exceeded."
  | .skip => "\"" ++ RunnableType.str .skip ++ "\" modifier timeout of " ++ toString timeout ++ "ms exceeded."
  | .slow => "\"" ++ RunnableType.str .slow ++ "\" modifier timeout of " ++ toString timeout ++ "ms exceeded."
  | .fixme => "\"" ++ RunnableType.str .fixme ++ "\" modifier timeout of " ++ toString timeout ++ "ms exceeded."
  | .fail => "\"" ++ RunnableType.str .fail ++ "\" modifier timeout of " ++ toString timeout ++ "ms exceeded."

/-- `const fixtureWithSlot = this._runnable.fixture?.slot ?
this._runnable.fixture : undefined` : the active fixture, when it declares
its own slot. -/
def TimeoutManager.fixtureWithSlot (m : TimeoutManager) : Option FixtureDescription :=
  match m.runnable.fixture with
  | some f => if f.slot.isSome then some f else none
  | none => none

/-- `const location = (fixtureWithSlot || this._runnable).location`. -/
def TimeoutManager.timeoutErrorLocation (m : TimeoutManager) : Option Location :=
  match m.fixtureWithSlot with
  | some f => f.location
  | none => m.runnable.location

/-- The `TimeoutManagerError` object produced by `_createTimeoutError`:
an `Error` with `message`, a cleared `name`, and a rewritten `stack`. -/
structure TimeoutManagerError where
  message : String
  name : String
  stack : String
deriving DecidableEq, Repr

/-- `_createTimeoutError()` : build the message from the runnable type,
override it unconditionally when the active fixture owns a slot, style it,
and return an error with cleared `name` and a stack of the message plus a
synthetic `at file:line:column` line when a location is known. -/
def TimeoutManager.createTimeoutError (m : TimeoutManager) : TimeoutManagerError :=
  let timeout := m.currentSlot.timeout
  let baseMessage := m.timeoutErrorBaseMessage timeout
  let message :=
    match m.fixtureWithSlot with
    | some f =>
      "Fixture \"" ++ f.title ++ "\" timeout of " ++ toString timeout ++ "ms exceeded during " ++ f.phase.str ++ "."
    | none => baseMessage
  let message := colorsRed message
  let location := m.timeoutErrorLocation
  { message := message
    name := ""
    stack := message ++ (match location with
      | some l => "\n    at " ++ l.str
      | none => "") }

/-- An error value flowing out of the awaited operation or the race:
either the Timer's generic timeout signal (`TimeoutRunnerError`), the
phase-specific error synthesized by `_createTimeoutError`, or any other
failure of the operation itself. -/
inductive ManagerError (E : Type) where
  | timeoutRunnerError : ManagerError E
  | managerTimeout : TimeoutManagerError → ManagerError E
  | opError : E → ManagerError E
deriving DecidableEq, Repr

/-- `withRunnable(runnable, cb)` as a pure transition.  The asynchronous
race `this._timeoutRunner.run(cb)` is represented by its outcome:
`raceTimedOut` is true when the deadline elapsed first (the run rejects
with `TimeoutRunnerError`), and `cbResult` is the operation's own
settlement.  `now1` and `now2` are the Timer's `elapsed()` readings at the
entry switch and at the restore-to-resting switch in the `finally` block.
When `runnable` is absent the operation runs unguarded and its outcome is
returned verbatim with no state change. -/
def TimeoutManager.withRunnable {T E : Type} (m : TimeoutManager)
    (runnable : Option RunnableDescription) (raceTimedOut : Bool)
    (cbResult : Except (ManagerError E) T) (now1 now2 : Nat) :
    Except (ManagerError E) T × TimeoutManager :=
  match runnable with
  | none => (cbResult, m)
  | some r =>
    let m1 := m.updateRunnable now1 r
    let raceResult : Except (ManagerError E) T :=
      if raceTimedOut then Except.error ManagerError.timeoutRunnerError else cbResult
    let result : Except (ManagerError E) T :=
      match raceResult with
      | Except.ok v => Except.ok v
      | Except.error ManagerError.timeoutRunnerError =>
        Except.error (ManagerError.managerTimeout m1.createTimeoutError)
      | Except.error e => Except.error e
    let m2 := m1.updateRunnable now2 restingRunnable
    (result, m2)

/-- One `withRunnable` call of a sequence: its description and the
parameters of its race. -/
structure CallSpec (T E : Type) where
  runnable : Option RunnableDescription
  raceTimedOut : Bool
  cbResult : Except (ManagerError E) T
  now1 : Nat
  now2 : Nat

/-- Run a sequence of non-overlapping `withRunnable` calls, threading the
manager state. -/
def TimeoutManager.runCalls {T E : Type} (m : TimeoutManager) : List (CallSpec T E) → TimeoutManager
  | [] => m
  | c :: cs => (TimeoutManager.withRunnable m c.runnable c.raceTimedOut c.cbResult c.now1 c.now2).2.runCalls cs

/-- A concrete state whose current runnable is a test carrying a fixture
that owns its own slot (heap id 1). -/
def fixtureSlotState : TimeoutManager :=
  { slots := [{ timeout := 5, elapsed := 0 }, { timeout := 7, elapsed := 1 }]
    defaultSlotId := 0
    runnable :=
      { type := RunnableType.test
        location := none
        slot := none
        fixture := some
          { title := "db"
            phase := FixturePhase.teardown
            location := some { file := "a.ts", line := 3, column := 4 }
            slot := some 1 } }
    timer := { timeout := 7, elapsed := 1 } }

/-- A concrete state in the default test phase, no fixture, whose runnable
carries a source location. -/
def testLocState : TimeoutManager :=
  { slots := [{ timeout := 30000, elapsed := 0 }]
    defaultSlotId := 0
    runnable :=
      { type := RunnableType.test
        location := some { file := "t.ts", line := 10, column := 2 }
        slot := none
        fixture := none }
    timer := { timeout := 30000, elapsed := 0 } }

/-! ## Helper lemmas about the slot heap -/

theorem TimeoutManager.currentSlotId_setSlot (m : TimeoutManager) (id : SlotId) (s : TimeSlot) :
    (m.setSlot id s).currentSlotId = m.currentSlotId := rfl

theorem TimeoutManager.length_setSlot (m : TimeoutManager) (id : SlotId) (s : TimeSlot) :
    (m.setSlot id s).slots.length = m.slots.length := by
  simp [TimeoutManager.setSlot]

theorem TimeoutManager.getSlot_setSlot_self (m : TimeoutManager) (id : SlotId) (s : TimeSlot)
    (h : id < m.slots.length) : (m.setSlot id s).getSlot id = s := by
  simp [TimeoutManager.getSlot, TimeoutManager.setSlot, List.getD,
    List.getElem?_set_eq_of_lt, h]

/-- C1: the resolved slot is the fixture's own slot when the runnable has a
fixture carrying one, else the runnable's own slot when present, else the
manager's default slot; `currentSlotId` is a total pure function, so
resolution always succeeds and has no side effects. -/
theorem C1_slot_resolution (m : TimeoutManager) :
    m.currentSlotId =
      (match m.runnable.fixture with
      | some f =>
        match f.slot with
        | some id => id
        | none =>
          match m.runnable.slot with
          | some id => id
          | none => m.defaultSlotId
      | none =>
        match m.runnable.slot with
        | some id => id
        | none => m.defaultSlotId) := by
  rcases m with ⟨slots, d, ⟨t, loc, rslot, fixture⟩, timer⟩
  cases fixture with
  | none => cases rslot <;> rfl
  | some f => cases hf : f.slot <;> cases rslot <;>
      simp [TimeoutManager.currentSlotId, hf]

/-- C8: `withRunnable(undefined, op)` runs the operation unguarded: the
whole manager state (current runnable, resolved slot, Timer deadline) is
unchanged and the operation's settlement is returned verbatim. -/
theorem C8_unguarded_passthrough {T E : Type} (m : TimeoutManager) (raceTimedOut : Bool)
    (cbResult : Except (ManagerError E) T) (now1 now2 : Nat) :
    TimeoutManager.withRunnable m none raceTimedOut cbResult now1 now2 = (cbResult, m) ∧
    (TimeoutManager.withRunnable m none raceTimedOut cbResult now1 now2).2.runnable = m.runnable ∧
    (TimeoutManager.withRunnable m none raceTimedOut cbResult now1 now2).2.currentSlot.timeout
      = m.currentSlot.timeout ∧
    (TimeoutManager.withRunnable m none raceTimedOut cbResult now1 now2).2.currentSlot.elapsed
      = m.currentSlot.elapsed ∧
    (TimeoutManager.withRunnable m none raceTimedOut cbResult now1 now2).2.currentSlotDeadline
      = m.currentSlotDeadline :=
  ⟨rfl, rfl, rfl, rfl, rfl⟩

/-- C3: with a present description, a resolved operation's value is returned
unchanged; a race lost to the Timer's generic timeout signal
(`TimeoutRunnerError`) — whether the race rejects with it or the operation
itself surfaces it — is replaced by the phase-specific timeout error built
from the post-switch state; any other failure propagates unchanged. -/
theorem C3_error_dispatch {T E : Type} (m : TimeoutManager) (r : RunnableDescription)
    (now1 now2 : Nat) :
    (∀ v : T, (TimeoutManager.withRunnable (E := E) m (some r) false (Except.ok v) now1 now2).1
        = Except.ok v) ∧
    (∀ cbResult : Except (ManagerError E) T,
      (TimeoutManager.withRunnable m (some r) true cbResult now1 now2).1
        = Except.error (ManagerError.managerTimeout (m.updateRunnable now1 r).createTimeoutError)) ∧
    ((TimeoutManager.withRunnable (T := T) (E := E) m (some r) false
        (Except.error ManagerError.timeoutRunnerError) now1 now2).1
        = Except.error (ManagerError.managerTimeout (m.updateRunnable now1 r).createTimeoutError)) ∧
    (∀ e : E, (TimeoutManager.withRunnable (T := T) m (some r) false
        (Except.error (ManagerError.opError e)) now1 now2).1
        = Except.error (ManagerError.opError e)) ∧
    (∀ te : TimeoutManagerError, (TimeoutManager.withRunnable (T := T) (E := E) m (some r) false
        (Except.error (ManagerError.managerTimeout te)) now1 now2).1
        = Except.error (ManagerError.managerTimeout te)) :=
  ⟨fun _ => rfl, fun _ => rfl, rfl, fun _ => rfl, fun _ => rfl⟩

/-- After any single `withRunnable` call the current runnable type is `test`
whenever it was `test` before the call. -/
theorem TimeoutManager.currentRunnableType_withRunnable {T E : Type} (m : TimeoutManager)
    (runnable : Option RunnableDescription) (raceTimedOut : Bool)
    (cbResult : Except (ManagerError E) T) (now1 now2 : Nat)
    (h : m.currentRunnableType = RunnableType.test) :
    (TimeoutManager.withRunnable m runnable raceTimedOut cbResult now1 now2).2.currentRunnableType
      = RunnableType.test := by
  cases runnable with
  | none => exact h
  | some r => rfl

/-- The resting-type invariant is preserved by any sequence of calls. -/
theorem TimeoutManager.currentRunnableType_runCalls {T E : Type} (calls : List (CallSpec T E)) :
    ∀ m : TimeoutManager, m.currentRunnableType = RunnableType.test →
      (m.runCalls calls).currentRunnableType = RunnableType.test := by
  induction calls with
  | nil => intro m h; exact h
  | cons c cs ih =>
    intro m h
    exact ih _ (TimeoutManager.currentRunnableType_withRunnable m c.runnable c.raceTimedOut
      c.cbResult c.now1 c.now2 h)

/-- C4: starting from a freshly constructed manager, the current runnable's
type is `test` before the first `withRunnable` call and again after every
call of any sequence of non-overlapping calls, whatever each operation's
outcome was. -/
theorem C4_resting_state {T E : Type} (timeout : Nat) (calls : List (CallSpec T E)) :
    (TimeoutManager.create timeout).currentRunnableType = RunnableType.test ∧
    ((TimeoutManager.create timeout).runCalls calls).currentRunnableType = RunnableType.test :=
  ⟨rfl, TimeoutManager.currentRunnableType_runCalls calls _ rfl⟩

/-! ## Helper lemmas about `slow` and `setTimeout` -/

theorem TimeoutManager.currentSlotId_slow (m : TimeoutManager) :
    m.slow.currentSlotId = m.currentSlotId := rfl

theorem TimeoutManager.length_slots_slow (m : TimeoutManager) :
    m.slow.slots.length = m.slots.length := by
  simp [TimeoutManager.slow, TimeoutManager.setSlot]

theorem TimeoutManager.currentSlot_slow (m : TimeoutManager)
    (h : m.currentSlotId < m.slots.length) :
    m.slow.currentSlot = { m.currentSlot with timeout := m.currentSlot.timeout * 3 } := by
  show (m.setSlot m.currentSlotId
      { m.getSlot m.currentSlotId with
        timeout := (m.getSlot m.currentSlotId).timeout * 3 }).getSlot m.currentSlotId = _
  rw [TimeoutManager.getSlot_setSlot_self _ _ _ h]
  rfl

/-- C5: one `slow()` call multiplies the resolved slot's timeout by three in
place and pushes the new value to the Timer; the effect compounds, so two
calls multiply the original timeout by nine and three calls by
twenty-seven. -/
theorem C5_slow_triples (m : TimeoutManager) (h : m.currentSlotId < m.slots.length) :
    m.slow.currentSlot.timeout = m.currentSlot.timeout * 3 ∧
    m.slow.timer.timeout = m.currentSlot.timeout * 3 ∧
    m.slow.slow.currentSlot.timeout = m.currentSlot.timeout * 9 ∧
    m.slow.slow.slow.currentSlot.timeout = m.currentSlot.timeout * 27 := by
  have h1 : m.slow.currentSlotId < m.slow.slots.length := by
    rw [TimeoutManager.currentSlotId_slow, TimeoutManager.length_slots_slow]; exact h
  have h2 : m.slow.slow.currentSlotId < m.slow.slow.slots.length := by
    rw [TimeoutManager.currentSlotId_slow, TimeoutManager.length_slots_slow]; exact h1
  have e1 := TimeoutManager.currentSlot_slow m h
  have e2 := TimeoutManager.currentSlot_slow m.slow h1
  have e3 := TimeoutManager.currentSlot_slow m.slow.slow h2
  refine ⟨by rw [e1], rfl, ?_, ?_⟩
  · rw [e2, e1]; simp; ring
  · rw [e3, e2, e1]; simp; ring

/-- Witness for C5 at a concrete manager with default timeout 5. -/
theorem C5_witness :
    (TimeoutManager.create 5).slow.currentSlot.timeout
      = (TimeoutManager.create 5).currentSlot.timeout * 3 ∧
    (TimeoutManager.create 5).slow.timer.timeout
      = (TimeoutManager.create 5).currentSlot.timeout * 3 ∧
    (TimeoutManager.create 5).slow.slow.currentSlot.timeout
      = (TimeoutManager.create 5).currentSlot.timeout * 9 ∧
    (TimeoutManager.create 5).slow.slow.slow.currentSlot.timeout
      = (TimeoutManager.create 5).currentSlot.timeout * 27 :=
  C5_slow_triples (TimeoutManager.create 5) (by decide)

/-- C6: `setTimeout(x)` is a complete no-op when the resolved slot's timeout
is zero (the timeout stays zero, nothing is pushed to the Timer, no error);
otherwise the resolved slot's timeout becomes exactly `x` (elapsed
untouched) and `x` is pushed to the Timer. -/
theorem C6_setTimeout_zero_sentinel (m : TimeoutManager) (x : Nat)
    (h : m.currentSlotId < m.slots.length) :
    (m.currentSlot.timeout = 0 →
      m.setTimeout x = m ∧ (m.setTimeout x).currentSlot.timeout = 0) ∧
    (m.currentSlot.timeout ≠ 0 →
      (m.setTimeout x).currentSlot.timeout = x ∧
      (m.setTimeout x).currentSlot.elapsed = m.currentSlot.elapsed ∧
      (m.setTimeout x).timer.timeout = x) := by
  constructor
  · intro h0
    have h0' : (m.getSlot m.currentSlotId).timeout = 0 := h0
    have heq : m.setTimeout x = m := by
      show (if (m.getSlot m.currentSlotId).timeout = 0 then m else _) = m
      rw [if_pos h0']
    exact ⟨heq, by rw [heq]; exact h0⟩
  · intro h0
    have h0' : ¬(m.getSlot m.currentSlotId).timeout = 0 := h0
    have hcs : (m.setTimeout x).currentSlot
        = { m.currentSlot with timeout := x } := by
      show ((if (m.getSlot m.currentSlotId).timeout = 0 then m else _).currentSlot) = _
      rw [if_neg h0']
      show (m.setSlot m.currentSlotId
        { m.getSlot m.currentSlotId with timeout := x }).getSlot m.currentSlotId = _
      rw [TimeoutManager.getSlot_setSlot_self _ _ _ h]
      rfl
    have htm : (m.setTimeout x).timer.timeout = x := by
      show ((if (m.getSlot m.currentSlotId).timeout = 0 then m else _).timer.timeout) = x
      rw [if_neg h0']
      rfl
    exact ⟨by rw [hcs], by rw [hcs], htm⟩

/-- Witness for C6: the zero branch at a manager created with timeout 0,
and the nonzero branch at a manager created with timeout 5. -/
theorem C6_witness :
    ((TimeoutManager.create 0).setTimeout 7 = TimeoutManager.create 0 ∧
      ((TimeoutManager.create 0).setTimeout 7).currentSlot.timeout = 0) ∧
    (((TimeoutManager.create 5).setTimeout 7).currentSlot.timeout = 7 ∧
      ((TimeoutManager.create 5).setTimeout 7).timer.timeout = 7) :=
  ⟨(C6_setTimeout_zero_sentinel (TimeoutManager.create 0) 7 (by decide)).1 (by decide),
   ⟨((C6_setTimeout_zero_sentinel (TimeoutManager.create 5) 7 (by decide)).2 (by decide)).1,
    ((C6_setTimeout_zero_sentinel (TimeoutManager.create 5) 7 (by decide)).2 (by decide)).2.2⟩⟩

theorem TimeoutManager.slow_timeout_zero (m : TimeoutManager)
    (h : m.currentSlot.timeout = 0) : m.slow.currentSlot.timeout = 0 := by
  by_cases hid : m.currentSlotId < m.slots.length
  · rw [TimeoutManager.currentSlot_slow m hid]
    simp [h]
  · show (m.slow.getSlot m.slow.currentSlotId).timeout = 0
    rw [TimeoutManager.currentSlotId_slow]
    show ((m.slow.slots).getD m.currentSlotId { timeout := 0, elapsed := 0 }).timeout = 0
    have hle : m.slow.slots.length ≤ m.currentSlotId := by
      rw [TimeoutManager.length_slots_slow]; exact Nat.le_of_not_lt hid
    rw [List.getD_eq_default _ _ hle]

/-- C10: when the resolved slot's timeout is zero, `slow()` leaves it zero:
zero is a fixed point of the tripling, so any number of `slow()` calls can
never re-enable a disabled budget. -/
theorem C10_slow_zero_fixed_point (m : TimeoutManager) (h : m.currentSlot.timeout = 0) :
    ∀ n : Nat, ((TimeoutManager.slow)^[n] m).currentSlot.timeout = 0 := by
  intro n
  induction n generalizing m with
  | zero => exact h
  | succ k ih =>
    rw [Function.iterate_succ_apply]
    exact ih m.slow (TimeoutManager.slow_timeout_zero m h)

/-- Witness for C10 at a manager created with timeout 0, two `slow` calls. -/
theorem C10_witness :
    ((TimeoutManager.slow)^[2] (TimeoutManager.create 0)).currentSlot.timeout = 0 :=
  C10_slow_zero_fixed_point (TimeoutManager.create 0) (by decide) 2

/-- C2: every runnable switch performed by `withRunnable` with a present
description — the entry switch and the restore-to-resting exit switch are
both applications of `updateRunnable` — first stamps the Timer's elapsed
reading into the outgoing resolved slot, then replaces the runnable, then
pushes the newly resolved slot's `(timeout, elapsed)` pair into the Timer;
when the same slot stays resolved the pushed elapsed equals the stamped
reading, so no elapsed time is lost across the switch. -/
theorem C2_switch_bookkeeping (m : TimeoutManager) (now : Nat) (r : RunnableDescription)
    (h : m.currentSlotId < m.slots.length) :
    ((m.updateRunnable now r).getSlot m.currentSlotId).elapsed = now ∧
    ((m.updateRunnable now r).getSlot m.currentSlotId).timeout
      = (m.getSlot m.currentSlotId).timeout ∧
    (m.updateRunnable now r).runnable = r ∧
    (m.updateRunnable now r).timer.timeout = (m.updateRunnable now r).currentSlot.timeout ∧
    (m.updateRunnable now r).timer.elapsed = (m.updateRunnable now r).currentSlot.elapsed ∧
    ((m.updateRunnable now r).currentSlotId = m.currentSlotId →
      (m.updateRunnable now r).timer.elapsed = now) ∧
    (∀ (T E : Type) (raceTimedOut : Bool) (cbResult : Except (ManagerError E) T) (n1 n2 : Nat),
      (TimeoutManager.withRunnable m (some r) raceTimedOut cbResult n1 n2).2
        = (m.updateRunnable n1 r).updateRunnable n2 restingRunnable) := by
  have hs : (m.updateRunnable now r).getSlot m.currentSlotId
      = { m.getSlot m.currentSlotId with elapsed := now } := by
    show (m.setSlot m.currentSlotId
        { m.getSlot m.currentSlotId with elapsed := now }).getSlot m.currentSlotId = _
    exact TimeoutManager.getSlot_setSlot_self _ _ _ h
  refine ⟨by rw [hs], by rw [hs], rfl, rfl, rfl, ?_, fun T E b c n1 n2 => rfl⟩
  intro hid
  show ((m.setSlot m.currentSlotId { m.getSlot m.currentSlotId with elapsed := now }).getSlot
      ((m.updateRunnable now r).currentSlotId)).elapsed = now
  rw [hid, TimeoutManager.getSlot_setSlot_self _ _ _ h]

/-- Witness for C2 at a concrete manager: the flushed reading lands in the
outgoing slot and is pushed back into the Timer. -/
theorem C2_witness :
    (((TimeoutManager.create 5).updateRunnable 2 restingRunnable).getSlot
        (TimeoutManager.create 5).currentSlotId).elapsed = 2 ∧
    ((TimeoutManager.create 5).updateRunnable 2 restingRunnable).timer.elapsed = 2 :=
  ⟨(C2_switch_bookkeeping (TimeoutManager.create 5) 2 restingRunnable (by decide)).1,
   (C2_switch_bookkeeping (TimeoutManager.create 5) 2 restingRunnable
      (by decide)).2.2.2.2.2.1 (by decide)⟩

/-- C7: whenever the active fixture declares its own slot, the timeout
error's message is unconditionally the fixture override (whatever the
runnable's type) and the attached location is the fixture's; with no
fixture-owning-a-slot active, the attached location is the runnable's. -/
theorem C7_fixture_location_priority (m : TimeoutManager) :
    (∀ f : FixtureDescription, m.runnable.fixture = some f → f.slot.isSome →
      m.createTimeoutError.message =
        colorsRed ("Fixture \"" ++ f.title ++ "\" timeout of "
          ++ toString m.currentSlot.timeout ++ "ms exceeded during " ++ f.phase.str ++ ".") ∧
      m.timeoutErrorLocation = f.location) ∧
    (m.fixtureWithSlot = none → m.timeoutErrorLocation = m.runnable.location) := by
  constructor
  · intro f hf hs
    have hfw : m.fixtureWithSlot = some f := by
      simp [TimeoutManager.fixtureWithSlot, hf, hs]
    constructor
    · simp [TimeoutManager.createTimeoutError, hfw]
    · simp [TimeoutManager.timeoutErrorLocation, hfw]
  · intro hfw
    simp [TimeoutManager.timeoutErrorLocation, hfw]

/-- Witness for C7: the fixture-owns-a-slot state gets the fixture message
and the fixture's location; a fixture-less state attaches the runnable's
location. -/
theorem C7_witness :
    (fixtureSlotState.createTimeoutError.message
        = "Fixture \"db\" timeout of 7ms exceeded during teardown." ∧
      fixtureSlotState.timeoutErrorLocation
        = some { file := "a.ts", line := 3, column := 4 }) ∧
    (TimeoutManager.create 5).timeoutErrorLocation = none := by
  have h := (C7_fixture_location_priority fixtureSlotState).1
    { title := "db", phase := FixturePhase.teardown
      location := some { file := "a.ts", line := 3, column := 4 }, slot := some 1 }
    rfl rfl
  refine ⟨⟨?_, h.2⟩, (C7_fixture_location_priority (TimeoutManager.create 5)).2 rfl⟩
  rw [h.1]
  rfl

/-- C9: in the default test phase with no fixture and resolved timeout `x`,
the error's message is exactly the test-timeout sentence; the error's name
is cleared; the stack is the message alone when the runnable has no
location, and the message plus a synthetic `at file:line:column` line when
it has one. -/
theorem C9_default_test_error_shape (m : TimeoutManager) (x : Nat)
    (ht : m.runnable.type = RunnableType.test)
    (hf : m.runnable.fixture = none)
    (hx : m.currentSlot.timeout = x) :
    m.createTimeoutError.message = "Test timeout of " ++ toString x ++ "ms exceeded." ∧
    m.createTimeoutError.name = "" ∧
    (m.runnable.location = none → m.createTimeoutError.stack = m.createTimeoutError.message) ∧
    (∀ l : Location, m.runnable.location = some l →
      m.createTimeoutError.stack = m.createTimeoutError.message ++ "\n    at "
        ++ l.file ++ ":" ++ toString l.line ++ ":" ++ toString l.column) := by
  have hfw : m.fixtureWithSlot = none := by
    simp [TimeoutManager.fixtureWithSlot, hf]
  have hmsg : m.createTimeoutError.message
      = "Test timeout of " ++ toString x ++ "ms exceeded." := by
    simp [TimeoutManager.createTimeoutError, TimeoutManager.timeoutErrorBaseMessage,
      hfw, ht, hf, hx, colorsRed]
  refine ⟨hmsg, rfl, ?_, ?_⟩
  · intro hl
    simp [TimeoutManager.createTimeoutError, TimeoutManager.timeoutErrorLocation,
      hfw, hl, String.append_empty]
  · intro l hl
    simp [TimeoutManager.createTimeoutError, TimeoutManager.timeoutErrorLocation,
      hfw, hl, Location.str, String.append_assoc]

/-- Witness for C9: the fresh manager with timeout 30000 (no location) and
a located test-phase state. -/
theorem C9_witness :
    (TimeoutManager.create 30000).createTimeoutError.message
        = "Test timeout of " ++ toString 30000 ++ "ms exceeded." ∧
    (TimeoutManager.create 30000).createTimeoutError.name = "" ∧
    (TimeoutManager.create 30000).createTimeoutError.stack
        = (TimeoutManager.create 30000).createTimeoutError.message ∧
    testLocState.createTimeoutError.stack
        = testLocState.createTimeoutError.message ++ "\n    at "
          ++ "t.ts" ++ ":" ++ toString 10 ++ ":" ++ toString 2 := by
  have h1 := C9_default_test_error_shape (TimeoutManager.create 30000) 30000 rfl rfl (by decide)
  have h2 := C9_default_test_error_shape testLocState 30000 rfl rfl (by decide)
  exact ⟨h1.1, h1.2.1, h1.2.2.1 rfl,
    h2.2.2.2 { file := "t.ts", line := 10, column := 2 } rfl⟩
